import Mathlib

/-!
Verification development for the `nutconf` command-line tool
(src/common/nutconfbin.cpp).

Layer 1 models the `Options` class: a tokenizer that splits a raw argument
vector into single-dashed and double-dashed option occurrences plus a bucket
of top-level ("binary") arguments.

The C++ class stores occurrences in `std::multimap`s.  A multimap keeps
entries sorted by key, equal keys in insertion order, and pointers to mapped
values stay valid across later inserts.  We model each multimap as an
insertion-ordered list of (name, arguments) entries:

* `count`/`get` only look at the sublist of entries with a given key, whose
  relative order in the multimap is insertion order, so a filter on the
  insertion-ordered list is observationally identical;
* the `strings` view (multimap iteration order) is recovered by a stable
  sort of the keys;
* the `m_last` pointer is an index into the insertion-ordered list, which
  is stable, exactly like a multimap mapped-value pointer.
-/

namespace NutConf

/-- Model of the `Options` store: `m_last` (`none` = binary arguments,
`some (false, i)` = `i`-th single-dash entry, `some (true, i)` = `i`-th
double-dash entry), `m_args`, `m_single`, `m_double`. -/
structure Options where
  mlast : Option (Bool × Nat)
  margs : List String
  msingle : List (String × List String)
  mdouble : List (String × List String)
deriving DecidableEq, Repr

/-- Append `arg` to the argument list of the `i`-th entry
(mirrors writing through the `m_last` pointer). -/
def updSnd : List (String × List String) → Nat → String → List (String × List String)
  | [], _, _ => []
  | e :: rest, 0, arg => (e.1, e.2 ++ [arg]) :: rest
  | e :: rest, Nat.succ n, arg => e :: updSnd rest n arg

/-- `Options::addArg`: append the argument to the last option processed,
or to the binary arguments when there is none. -/
def Options.addArg (st : Options) (arg : String) : Options :=
  match st.mlast with
  | none => { st with margs := st.margs ++ [arg] }
  | some (false, i) => { st with msingle := updSnd st.msingle i arg }
  | some (true, i) => { st with mdouble := updSnd st.mdouble i arg }

/-- `Options::add`: insert a fresh occurrence (never coalesced with an
earlier occurrence of the same name) and point `m_last` at it. -/
def Options.add (st : Options) (isDouble : Bool) (opt : String) : Options :=
  if isDouble then
    { st with
      mdouble := st.mdouble ++ [(opt, [])],
      mlast := some (true, st.mdouble.length) }
  else
    { st with
      msingle := st.msingle ++ [(opt, [])],
      mlast := some (false, st.msingle.length) }

/-- One iteration of the token loop in `Options::Options`. -/
def Options.step (st : Options) (arg : String) : Options :=
  match arg.toList with
  | [] => st.addArg arg
  | [_] => st.addArg arg
  | c1 :: c2 :: rest =>
    if c1 = '-' then
      if c2 = '-' then
        match rest with
        | [] => { st with mlast := none }
        | c3 :: _ => if c3 = '-' then st.addArg arg else st.add true (String.mk rest)
      else st.add false (String.mk (c2 :: rest))
    else st.addArg arg

/-- `Options::Options`: fold the token loop over `argv[1..]`. -/
def Options.build (tokens : List String) : Options :=
  tokens.foldl Options.step ⟨none, [], [], []⟩

/-- Argument lists of the occurrences named `opt`, in command-line order
(the multimap equal range of `opt`, in insertion order). -/
def occsIn (m : List (String × List String)) (opt : String) : List (List String) :=
  (m.filter (fun e => e.1 == opt)).map (fun e => e.2)

/-- `Options::count(map, opt)`: size of the equal range of `opt`. -/
def Options.countSingle (st : Options) (opt : String) : Nat :=
  (occsIn st.msingle opt).length

/-- `Options::countDouble`. -/
def Options.countDouble (st : Options) (opt : String) : Nat :=
  (occsIn st.mdouble opt).length

/-- `Options::count(opt)`.  The C++ member is declared
`inline bool count(const std::string & opt) const`, so the sum
`countSingle(opt) + countDouble(opt)` is converted to `bool`:
any positive count collapses to `true`. -/
def Options.count (st : Options) (opt : String) : Bool :=
  decide (st.countSingle opt + st.countDouble opt ≠ 0)

/-- `Options::get(map, opt, args, order)`: the `order`-th occurrence of
`opt` (within the equal range, i.e. in command-line order), if any. -/
def Options.getDouble (st : Options) (opt : String) (order : Nat) :
    Option (List String) :=
  (occsIn st.mdouble opt)[order]?

/-- Single-dash counterpart of `Options.getDouble`. -/
def Options.getSingle (st : Options) (opt : String) (order : Nat) :
    Option (List String) :=
  (occsIn st.msingle opt)[order]?

/-- Lexicographic comparison of character lists by code point
(`std::string` ordering, used as the multimap key order). -/
def charsLt : List Char → List Char → Bool
  | [], [] => false
  | [], _ :: _ => true
  | _ :: _, [] => false
  | a :: as, b :: bs =>
    if a.toNat < b.toNat then true
    else if b.toNat < a.toNat then false
    else charsLt as bs

/-- `std::string operator<`. -/
def strLt (a b : String) : Bool :=
  charsLt a.toList b.toList

/-- Stable insertion of a string into a sorted list (later equal keys end
up after earlier ones, matching multimap iteration order). -/
def insSorted (x : String) : List String → List String
  | [] => [x]
  | y :: ys => if strLt x y then x :: y :: ys else y :: insSorted x ys

/-- Keys of a map in multimap iteration order: sorted, with multiplicity,
equal keys in insertion order (`Options::strings(map, list)`). -/
def sortedKeys (m : List (String × List String)) : List String :=
  (m.map (fun e => e.1)).foldl (fun acc s => insSorted s acc) []

/-- `Options::stringsSingle`. -/
def Options.stringsSingle (st : Options) : List String :=
  sortedKeys st.msingle

/-- `Options::stringsDouble`. -/
def Options.stringsDouble (st : Options) : List String :=
  sortedKeys st.mdouble

/-- Shape predicate: tokens the `Options::Options` loop treats as plain
arguments (empty, not starting with a dash, a lone character, `---…`). -/
def isArgToken (arg : String) : Bool :=
  match arg.toList with
  | [] => true
  | [_] => true
  | c1 :: c2 :: rest =>
    if c1 = '-' then
      if c2 = '-' then
        match rest with
        | [] => false
        | c3 :: _ => c3 = '-'
      else false
    else true

example : Options.build ["-x", "a", "--mode", "m1", "--", "b"] =
    ⟨none, ["b"], [("x", ["a"])], [("mode", ["m1"])]⟩ := by decide

example : (Options.build ["-x", "-x"]).countSingle "x" = 2 := by decide

example : (Options.build ["--b", "--a", "--b"]).stringsDouble =
    ["a", "b", "b"] := by decide

/-!
Layer 2 models the `NutConfOptions` class: the catalog-driven validation
pass over the double-dashed names of the store.
-/

/-- `NutConfOptions::mode_t`. -/
inductive OptMode where
  | NOT_SPECIFIED
  | GETTER
  | SETTER
deriving DecidableEq, Repr

/-- `NutConfOptions::DeviceSpec` (`desc` default-constructs to `""`). -/
structure DeviceSpec where
  id : String
  driver : String
  port : String
  desc : String
deriving DecidableEq, Repr

/-- The `NutConfOptions` object: the underlying store plus the fields filled
in by the constructor.  `localDir` models the C++ member `local`
(`local` is reserved in Lean). -/
structure NutConfOptions where
  base : Options
  unknown : List String
  errors : List String
  valid : Bool
  autoconfigure : Bool
  is_configured : Bool
  system : Bool
  localDir : String
  mode : String
  monitors : List String
  set_monitor_cnt : Nat
  add_monitor_cnt : Nat
  listen_addrs : List (String × String)
  set_listen_cnt : Nat
  add_listen_cnt : Nat
  devices : List DeviceSpec
  set_device_cnt : Nat
  add_device_cnt : Nat
deriving DecidableEq, Repr

/-- `NutConfOptions::optMode(opt, args, order)`: mode of the `order`-th
occurrence of the double-dashed option, together with its arguments. -/
def optModeD (o : Options) (opt : String) (order : Nat) : OptMode × List String :=
  match o.getDouble opt order with
  | none => (OptMode.NOT_SPECIFIED, [])
  | some args => if args.isEmpty then (OptMode.GETTER, []) else (OptMode.SETTER, args)

/-- `NutConfOptions::checkMode`. -/
def checkMode (mode : String) : Bool :=
  mode = "standalone" || mode = "netserver" || mode = "netclient" ||
  mode = "controlled" || mode = "manual" || mode = "none"

/-- `'s' == (*opt)[0]`: selects the `set-*` counter over the `add-*` one. -/
def firstCharIsS (s : String) : Bool :=
  s.toList.head? == some 's'

/-- The `"local"` branch of the constructor loop. -/
def procLocal (st : NutConfOptions) : NutConfOptions :=
  let pr := optModeD st.base "local" 0
  if st.localDir ≠ "" then
    { st with errors := st.errors ++ ["--local option specified more than once"] }
  else if pr.1 ≠ OptMode.SETTER then
    { st with errors := st.errors ++ ["--local option requires an argument"] }
  else if pr.2.length > 1 then
    { st with errors := st.errors ++
        ["Only one directory may be specified with the --local option"] }
  else
    { st with localDir := pr.2.headD "" }

/-- The `"mode"` branch of the constructor loop. -/
def procMode (st : NutConfOptions) : NutConfOptions :=
  let pr := optModeD st.base "mode" 0
  if st.mode ≠ "" then
    { st with errors := st.errors ++ ["--mode option specified more than once"] }
  else if pr.1 ≠ OptMode.SETTER then
    { st with errors := st.errors ++ ["--mode option requires an argument"] }
  else if pr.2.length > 1 then
    { st with errors := st.errors ++ ["Only one argument allowed for the --mode option"] }
  else if pr.2.length = 1 ∧ checkMode (pr.2.headD "") = false then
    { st with errors := st.errors ++
        ["Unknown NUT mode: \"" ++ pr.2.headD "" ++ "\""] }
  else
    { st with mode := pr.2.headD "" }

/-- The `"set-monitor"`/`"add-monitor"` branch: the occurrence addressed by
the running per-name counter must be a Setter with exactly 6 arguments;
a valid occurrence is flattened into `monitors`; the counter is always
bumped. -/
def procMonitor (st : NutConfOptions) (opt : String) : NutConfOptions :=
  let isSet := firstCharIsS opt
  let cnt := if isSet then st.set_monitor_cnt else st.add_monitor_cnt
  let pr := optModeD st.base opt cnt
  let st' :=
    if pr.1 ≠ OptMode.SETTER then
      { st with errors := st.errors ++ ["--" ++ opt ++ " option requires arguments"] }
    else if pr.2.length ≠ 6 then
      { st with errors := st.errors ++
          ["--" ++ opt ++ " option requires exactly 6 arguments"] }
    else
      { st with monitors := st.monitors ++ pr.2 }
  if isSet then { st' with set_monitor_cnt := st'.set_monitor_cnt + 1 }
  else { st' with add_monitor_cnt := st'.add_monitor_cnt + 1 }

/-- The `"set-listen"`/`"add-listen"` branch. -/
def procListen (st : NutConfOptions) (opt : String) : NutConfOptions :=
  let isSet := firstCharIsS opt
  let cnt := if isSet then st.set_listen_cnt else st.add_listen_cnt
  let pr := optModeD st.base opt cnt
  let st' :=
    if pr.1 ≠ OptMode.SETTER then
      { st with errors := st.errors ++ ["--" ++ opt ++ " option requires arguments"] }
    else if pr.2.length < 1 ∨ pr.2.length > 2 then
      { st with errors := st.errors ++
          ["--" ++ opt ++ " option requires 1 or 2 arguments"] }
    else
      { st with listen_addrs := st.listen_addrs ++
          [(pr.2.headD "", if pr.2.length > 1 then pr.2.getLastD "" else "")] }
  if isSet then { st' with set_listen_cnt := st'.set_listen_cnt + 1 }
  else { st' with add_listen_cnt := st'.add_listen_cnt + 1 }

/-- The `"set-device"`/`"add-device"` branch. -/
def procDevice (st : NutConfOptions) (opt : String) : NutConfOptions :=
  let isSet := firstCharIsS opt
  let cnt := if isSet then st.set_device_cnt else st.add_device_cnt
  let pr := optModeD st.base opt cnt
  let st' :=
    if pr.1 ≠ OptMode.SETTER then
      { st with errors := st.errors ++ ["--" ++ opt ++ " option requires arguments"] }
    else if pr.2.length < 3 then
      { st with errors := st.errors ++
          ["--" ++ opt ++ " option requires at least 3 arguments"] }
    else if pr.2.length > 4 then
      { st with errors := st.errors ++
          ["--" ++ opt ++ " option takes at most 4 arguments",
           "    (perhaps you need to quote description?)"] }
    else
      { st with devices := st.devices ++
          [{ id := pr.2.getD 0 "", driver := pr.2.getD 1 "",
             port := pr.2.getD 2 "", desc := pr.2.getD 3 "" }] }
  if isSet then { st' with set_device_cnt := st'.set_device_cnt + 1 }
  else { st' with add_device_cnt := st'.add_device_cnt + 1 }

/-- Body of the double-dashed specification loop of
`NutConfOptions::NutConfOptions` (the else-if dispatch on the name). -/
def procOpt (st : NutConfOptions) (opt : String) : NutConfOptions :=
  if opt = "autoconfigure" then
    if st.autoconfigure then
      { st with errors := st.errors ++ ["--autoconfigure option specified more than once"] }
    else { st with autoconfigure := true }
  else if opt = "is-configured" then
    if st.is_configured then
      { st with errors := st.errors ++ ["--is-configured option specified more than once"] }
    else { st with is_configured := true }
  else if opt = "local" then procLocal st
  else if opt = "system" then
    if st.system then
      { st with errors := st.errors ++ ["--system option specified more than once"] }
    else { st with system := true }
  else if opt = "mode" then procMode st
  else if opt = "set-monitor" ∨ opt = "add-monitor" then procMonitor st opt
  else if opt = "set-listen" ∨ opt = "add-listen" then procListen st opt
  else if opt = "set-device" ∨ opt = "add-device" then procDevice st opt
  else { st with unknown := st.unknown ++ ["--" ++ opt] }

/-- Validity computation and the three mutual-exclusion checks at the end
of `NutConfOptions::NutConfOptions`. -/
def finalize (st : NutConfOptions) : NutConfOptions :=
  let st1 := { st with valid :=
    st.unknown.isEmpty && st.errors.isEmpty && st.base.margs.isEmpty }
  let st2 :=
    if 0 < st1.set_monitor_cnt ∧ 0 < st1.add_monitor_cnt then
      { st1 with
        errors := st1.errors ++
          ["--set-monitor and --add-monitor options can't both be specified"],
        valid := false }
    else st1
  let st3 :=
    if 0 < st2.set_listen_cnt ∧ 0 < st2.add_listen_cnt then
      { st2 with
        errors := st2.errors ++
          ["--set-listen and --add-listen options can't both be specified"],
        valid := false }
    else st2
  if 0 < st3.set_device_cnt ∧ 0 < st3.add_device_cnt then
    { st3 with
      errors := st3.errors ++
        ["--set-device and --add-device options can't both be specified"],
      valid := false }
  else st3

/-- Initial `NutConfOptions` state: every single-dashed name is unknown
(collected with its dash restored), all fields zeroed. -/
def initNutConf (base : Options) : NutConfOptions :=
  { base := base
    unknown := base.stringsSingle.map (fun s => "-" ++ s)
    errors := []
    valid := true
    autoconfigure := false
    is_configured := false
    system := false
    localDir := ""
    mode := ""
    monitors := []
    set_monitor_cnt := 0
    add_monitor_cnt := 0
    listen_addrs := []
    set_listen_cnt := 0
    add_listen_cnt := 0
    devices := []
    set_device_cnt := 0
    add_device_cnt := 0 }

/-- `NutConfOptions::NutConfOptions` over `argv[1..]`: build the store,
collect single-dashed names as unknown, run the dispatch loop over the
double-dashed names (in multimap iteration order), then finalize. -/
def NutConfOptions.build (tokens : List String) : NutConfOptions :=
  let base := Options.build tokens
  finalize ((base.stringsDouble).foldl procOpt (initNutConf base))

/-- `NutConfOptions::getMonitor`: `none` models the thrown
`std::range_error` when `which >= monitors.size() / 6`; otherwise the six
fields at positions `6*which .. 6*which+5`. -/
def NutConfOptions.getMonitor (o : NutConfOptions) (which : Nat) :
    Option (String × String × String × String × String × String) :=
  if o.monitors.length / 6 ≤ which then none
  else
    some (o.monitors.getD (6 * which) "", o.monitors.getD (6 * which + 1) "",
          o.monitors.getD (6 * which + 2) "", o.monitors.getD (6 * which + 3) "",
          o.monitors.getD (6 * which + 4) "", o.monitors.getD (6 * which + 5) "")

/-!
Layer 3 models record materialization: the `monitor(i, options)` helper
turns the six raw monitor tokens into a typed monitor record, parsing the
`host[:port]` specification and the power value.  The C++ helper calls
`::exit(1)` on a parse failure; we model that fatal abort as `none`.
-/

/-- Index of the last occurrence of `c` (`std::string::rfind`). -/
def lastIdxOf (cs : List Char) (c : Char) : Option Nat :=
  match cs with
  | [] => none
  | x :: xs =>
    match lastIdxOf xs c with
    | some i => some (i + 1)
    | none => if x = c then some 0 else none

/-- Value of a digit string. -/
def digitsToNat (ds : List Char) : Nat :=
  ds.foldl (fun acc c => 10 * acc + (c.toNat - 48)) 0

/-- Leading digit run of `cs`, as a number (`none` when there is none). -/
def extractNatCore (cs : List Char) : Option Nat :=
  let ds := cs.takeWhile Char.isDigit
  if ds.isEmpty then none else some (digitsToNat ds)

/-- `std::stringstream >> (unsigned short)`: skip leading whitespace, allow
an optional sign, read a digit run (trailing characters are ignored);
extraction fails when there is no digit or the value is out of range
(C++11 stores the clamped value and sets `failbit`). -/
def extractUShort (s : String) : Option Nat :=
  let cs := s.toList.dropWhile Char.isWhitespace
  match cs with
  | '+' :: rest => (extractNatCore rest).bind (fun n => if n ≤ 65535 then some n else none)
  | '-' :: rest => (extractNatCore rest).bind (fun n => if n = 0 then some 0 else none)
  | _ => (extractNatCore cs).bind (fun n => if n ≤ 65535 then some n else none)

/-- `std::stringstream >> (unsigned int)` (32-bit range). -/
def extractUInt (s : String) : Option Nat :=
  let cs := s.toList.dropWhile Char.isWhitespace
  match cs with
  | '+' :: rest => (extractNatCore rest).bind (fun n => if n ≤ 4294967295 then some n else none)
  | '-' :: rest => (extractNatCore rest).bind (fun n => if n = 0 then some 0 else none)
  | _ => (extractNatCore cs).bind (fun n => if n ≤ 4294967295 then some n else none)

/-- The `host[:port]` parse in `monitor(i, options)`: split at the last
colon; with no colon the whole string is the hostname and the port keeps
its initialisation `0`; a colon whose suffix fails numeric extraction is
fatal (`::exit(1)`, modelled as `none`). -/
def parseHostPort (host_port : String) : Option (String × Nat) :=
  match lastIdxOf host_port.toList ':' with
  | none => some (host_port, 0)
  | some idx =>
    match extractUShort (String.mk (host_port.toList.drop (idx + 1))) with
    | none => none
    | some p => some (String.mk (host_port.toList.take idx), p)

/-- `nut::UpsmonConfiguration::Monitor`, as filled in by `monitor(i, options)`. -/
structure Monitor where
  upsname : String
  hostname : String
  username : String
  password : String
  port : Nat
  powerValue : Nat
  isMaster : Bool
deriving DecidableEq, Repr

/-- `monitor(i, options)`: materialize the `i`-th monitor record;
`none` models both the `getMonitor` range error and the fatal parse
aborts. -/
def monitorOf (o : NutConfOptions) (i : Nat) : Option Monitor :=
  match o.getMonitor i with
  | none => none
  | some (ups, host_port, pwr_val, user, passwd, mode) =>
    match parseHostPort host_port with
    | none => none
    | some (host, port) =>
      match extractUInt pwr_val with
      | none => none
      | some pv =>
        some { upsname := ups, hostname := host, username := user,
               password := passwd, port := port, powerValue := pv,
               isMaster := mode == "master" }

/-!
Layer 4 models the device merge of `setDevices` on the `ups.conf` section
map.  The section map of `nut::UpsConfiguration` is a `std::map` keyed by
section name (the empty name is the reserved global section); we model the
state `setDevices` manipulates as an association list of section name to
the three fields the tool writes.
-/

/-- The fields of a `ups.conf` section that `setDevices` writes. -/
structure UpsEntry where
  driver : Option String
  port : Option String
  desc : Option String
deriving DecidableEq, Repr

/-- Modelled from the spec: the upsert primitive behind
`nut::UpsConfiguration::setDriver`, `setPort` and `setDescription`
(declared in `nutconf.h`, outside this file's sources): set a field keyed
by device id, "creating the entry if absent, overwriting fields if
present". -/
def setEntryField (m : List (String × UpsEntry)) (id : String)
    (f : UpsEntry → UpsEntry) : List (String × UpsEntry) :=
  if m.any (fun e => e.1 == id) then
    m.map (fun e => if e.1 == id then (e.1, f e.2) else e)
  else m ++ [(id, f ⟨none, none, none⟩)]

/-- `ups_conf.setDriver(id, driver)`. -/
def setDriver (m : List (String × UpsEntry)) (id v : String) :
    List (String × UpsEntry) :=
  setEntryField m id (fun e => { e with driver := some v })

/-- `ups_conf.setPort(id, port)`. -/
def setPort (m : List (String × UpsEntry)) (id v : String) :
    List (String × UpsEntry) :=
  setEntryField m id (fun e => { e with port := some v })

/-- `ups_conf.setDescription(id, desc)`. -/
def setDescription (m : List (String × UpsEntry)) (id v : String) :
    List (String × UpsEntry) :=
  setEntryField m id (fun e => { e with desc := some v })

/-- Per-record body of the `setDevices` upsert loop: set driver and port,
and the description only when non-empty. -/
def applyDevice (m : List (String × UpsEntry)) (d : DeviceSpec) :
    List (String × UpsEntry) :=
  let m1 := setDriver m d.id d.driver
  let m2 := setPort m1 d.id d.port
  if d.desc ≠ "" then setDescription m2 d.id d.desc else m2

/-- The removal loop of `setDevices` (`keep_ex == false`), stepping an
iterator over the section map in key order: a section with the empty
(global) name is skipped via `continue`; otherwise the code calls
`sections.erase(ups)` and the loop header then executes `++ups` on the
iterator that `erase` just invalidated — undefined behavior in C++
(`none` marks that the loop reached this use of an invalidated iterator).
The first argument accumulates the sections already passed over. -/
def eraseNonGlobal : List (String × UpsEntry) → List (String × UpsEntry) →
    Option (List (String × UpsEntry))
  | acc, [] => some acc
  | acc, e :: rest =>
    if e.1 == "" then eraseNonGlobal (acc ++ [e]) rest
    else none

/-- The merge performed by `setDevices` between sourcing and storing the
configuration: optional removal of the non-global sections, then the
upsert loop over the new device records. -/
def mergeDevices (sections : List (String × UpsEntry)) (devs : List DeviceSpec)
    (keep_ex : Bool) : Option (List (String × UpsEntry)) :=
  (if keep_ex then some sections else eraseNonGlobal [] sections).map
    (fun s => devs.foldl applyDevice s)

/-! Helper lemmas. -/

theorem updSnd_filter_len (m : List (String × List String)) (i : Nat)
    (a n : String) :
    ((updSnd m i a).filter (fun e => e.1 == n)).length =
      (m.filter (fun e => e.1 == n)).length := by
  induction m generalizing i with
  | nil => cases i <;> rfl
  | cons e rest ih =>
    cases i with
    | zero =>
      simp only [updSnd, List.filter_cons]
      by_cases hb : (e.1 == n) = true <;> simp [hb]
    | succ k =>
      simp only [updSnd, List.filter_cons]
      by_cases hb : (e.1 == n) = true <;> simp [hb, ih]

theorem countSingle_addArg (st : Options) (arg n : String) :
    (st.addArg arg).countSingle n = st.countSingle n := by
  unfold Options.addArg
  cases h : st.mlast with
  | none => rfl
  | some p =>
    rcases p with ⟨b, i⟩
    cases b <;> simp [Options.countSingle, occsIn, updSnd_filter_len]

theorem countDouble_addArg (st : Options) (arg n : String) :
    (st.addArg arg).countDouble n = st.countDouble n := by
  unfold Options.addArg
  cases h : st.mlast with
  | none => rfl
  | some p =>
    rcases p with ⟨b, i⟩
    cases b <;> simp [Options.countDouble, occsIn, updSnd_filter_len]

theorem step_of_isArgToken (st : Options) (arg : String)
    (h : isArgToken arg = true) : st.step arg = st.addArg arg := by
  unfold Options.step
  unfold isArgToken at h
  simp only [String.toList] at h ⊢
  rcases harg : arg.data with _ | ⟨c1, _ | ⟨c2, rest⟩⟩
  · rfl
  · rfl
  · rw [harg] at h
    by_cases h1 : c1 = '-'
    · subst h1
      by_cases h2 : c2 = '-'
      · subst h2
        rcases rest with _ | ⟨c3, rest'⟩
        · simp at h
        · by_cases h3 : c3 = '-'
          · simp [h3]
          · simp [h3] at h
      · simp [h2] at h
    · simp [h1]

theorem lastIdxOf_eq_none (cs : List Char) (c : Char) (h : c ∉ cs) :
    lastIdxOf cs c = none := by
  induction cs with
  | nil => rfl
  | cons x xs ih =>
    simp only [List.mem_cons, not_or] at h
    have hx : x ≠ c := fun he => h.1 he.symm
    simp [lastIdxOf, ih h.2, hx]

/-- **C2** (status: code_bug).  The per-map counts do return the number of
occurrences of the name, but the combined `Options::count(opt)` is declared
`bool` in the C++ source, so the sum `countSingle + countDouble` is
collapsed through a boolean conversion: on `-x -x` the real count is 2
while `count("x")` yields `true` (i.e. 1 when used as a number), not 2. -/
theorem count_collapsed_by_bool_return :
    (Options.build ["-x", "-x"]).countSingle "x" +
      (Options.build ["-x", "-x"]).countDouble "x" = 2 ∧
    (Options.build ["-x", "-x"]).count "x" = true := by decide

/-- **C3** (status: code_bug).  With `keepExisting = false` and an existing
non-global device section, the removal loop of `setDevices` erases the
section and then increments the iterator invalidated by that `erase`:
the loop reaches undefined behavior (modelled as `none`) instead of
removing every non-global entry and upserting the new record. -/
theorem setDevices_removal_loop_invalidates_iterator :
    eraseNonGlobal []
      [("", ⟨none, none, none⟩),
       ("A", ⟨some "d1", some "p1", none⟩),
       ("B", ⟨some "d1", some "p1", none⟩)] = none ∧
    mergeDevices
      [("", ⟨none, none, none⟩),
       ("A", ⟨some "d1", some "p1", none⟩),
       ("B", ⟨some "d1", some "p1", none⟩)]
      [{ id := "A", driver := "d2", port := "p2", desc := "" }] false = none := by
  decide

/-- **C5** (status: confirmed).  Monitor host:port materialization:
`"host:9999"` splits at the last colon into hostname `"host"` and port
`9999`; a string without a colon is the whole hostname with the port left
at its initialisation `0`; the split really is at the *last* colon; a
suffix after the last colon that fails numeric extraction is fatal
(modelled as `none`), and it makes the whole monitor materialization
abort. -/
theorem host_port_materialization :
    parseHostPort "host:9999" = some ("host", 9999) ∧
    (∀ s : String, ':' ∉ s.toList → parseHostPort s = some (s, 0)) ∧
    parseHostPort "a:b:7" = some ("a:b", 7) ∧
    parseHostPort "host:abc" = none ∧
    (∀ (o : NutConfOptions) (i : Nat)
       (t : String × String × String × String × String × String),
       o.getMonitor i = some t → parseHostPort t.2.1 = none →
       monitorOf o i = none) := by
  refine ⟨by decide, ?_, by decide, by decide, ?_⟩
  · intro s h
    unfold parseHostPort
    rw [lastIdxOf_eq_none _ _ h]
  · intro o i t h1 h2
    obtain ⟨ups, hp, pw, us, pa, mo⟩ := t
    simp only [] at h2
    simp [monitorOf, h1, h2]

/-- Witness for `host_port_materialization`: the hypotheses hold and the
conclusions follow at concrete inputs (`"host"` has no colon; a monitor
whose host specification is `"h:x"` aborts materialization). -/
theorem host_port_materialization_witness :
    (':' ∉ "host".toList ∧ parseHostPort "host" = some ("host", 0)) ∧
    ((NutConfOptions.build
        ["--set-monitor", "u", "h:x", "1", "usr", "pw", "master"]).getMonitor 0 =
        some ("u", "h:x", "1", "usr", "pw", "master") ∧
      parseHostPort "h:x" = none ∧
      monitorOf (NutConfOptions.build
        ["--set-monitor", "u", "h:x", "1", "usr", "pw", "master"]) 0 = none) :=
  ⟨⟨by decide, host_port_materialization.2.1 "host" (by decide)⟩,
   ⟨by decide, by decide,
    host_port_materialization.2.2.2.2
      (NutConfOptions.build
        ["--set-monitor", "u", "h:x", "1", "usr", "pw", "master"]) 0
      ("u", "h:x", "1", "usr", "pw", "master") (by decide) (by decide)⟩⟩

theorem finalize_spec (st : NutConfOptions) :
    ((finalize st).valid = true ↔
      (finalize st).unknown = [] ∧ (finalize st).errors = [] ∧
      (finalize st).base.margs = [] ∧
      ¬(0 < (finalize st).set_monitor_cnt ∧ 0 < (finalize st).add_monitor_cnt) ∧
      ¬(0 < (finalize st).set_listen_cnt ∧ 0 < (finalize st).add_listen_cnt) ∧
      ¬(0 < (finalize st).set_device_cnt ∧ 0 < (finalize st).add_device_cnt)) ∧
    (0 < (finalize st).set_monitor_cnt ∧ 0 < (finalize st).add_monitor_cnt →
      (finalize st).valid = false ∧
      "--set-monitor and --add-monitor options can't both be specified" ∈
        (finalize st).errors) ∧
    (0 < (finalize st).set_listen_cnt ∧ 0 < (finalize st).add_listen_cnt →
      (finalize st).valid = false ∧
      "--set-listen and --add-listen options can't both be specified" ∈
        (finalize st).errors) ∧
    (0 < (finalize st).set_device_cnt ∧ 0 < (finalize st).add_device_cnt →
      (finalize st).valid = false ∧
      "--set-device and --add-device options can't both be specified" ∈
        (finalize st).errors) := by
  simp only [finalize]
  split_ifs with h1 h2 h3 h2 h3 h3 <;>
    simp_all [List.isEmpty_iff, List.append_eq_nil, Bool.and_eq_true]
  all_goals tauto

/-- **C1** (status: confirmed).  After validation, `valid` is true iff the
unknown-option list, the error list and the top-level (binary) argument
list are all empty and no record family has both its `set-*` and `add-*`
counts positive; and for each family with both counts positive the
corresponding mutual-exclusion error is appended and `valid` is forced to
false. -/
theorem valid_iff_no_problems (tokens : List String) :
    ((NutConfOptions.build tokens).valid = true ↔
      (NutConfOptions.build tokens).unknown = [] ∧
      (NutConfOptions.build tokens).errors = [] ∧
      (NutConfOptions.build tokens).base.margs = [] ∧
      ¬(0 < (NutConfOptions.build tokens).set_monitor_cnt ∧
        0 < (NutConfOptions.build tokens).add_monitor_cnt) ∧
      ¬(0 < (NutConfOptions.build tokens).set_listen_cnt ∧
        0 < (NutConfOptions.build tokens).add_listen_cnt) ∧
      ¬(0 < (NutConfOptions.build tokens).set_device_cnt ∧
        0 < (NutConfOptions.build tokens).add_device_cnt)) ∧
    (0 < (NutConfOptions.build tokens).set_monitor_cnt ∧
        0 < (NutConfOptions.build tokens).add_monitor_cnt →
      (NutConfOptions.build tokens).valid = false ∧
      "--set-monitor and --add-monitor options can't both be specified" ∈
        (NutConfOptions.build tokens).errors) ∧
    (0 < (NutConfOptions.build tokens).set_listen_cnt ∧
        0 < (NutConfOptions.build tokens).add_listen_cnt →
      (NutConfOptions.build tokens).valid = false ∧
      "--set-listen and --add-listen options can't both be specified" ∈
        (NutConfOptions.build tokens).errors) ∧
    (0 < (NutConfOptions.build tokens).set_device_cnt ∧
        0 < (NutConfOptions.build tokens).add_device_cnt →
      (NutConfOptions.build tokens).valid = false ∧
      "--set-device and --add-device options can't both be specified" ∈
        (NutConfOptions.build tokens).errors) :=
  finalize_spec
    (((Options.build tokens).stringsDouble).foldl procOpt
      (initNutConf (Options.build tokens)))

/-- Witness for `valid_iff_no_problems`: at a command line that uses both
`--set-monitor` and `--add-monitor`, the mutual-exclusion hypotheses hold
and the theorem yields `valid = false` with the error recorded. -/
theorem valid_iff_no_problems_witness :
    (0 < (NutConfOptions.build
        ["--set-monitor", "a", "b", "c", "d", "e", "f",
         "--add-monitor", "u", "v", "w", "x", "y", "z"]).set_monitor_cnt ∧
      0 < (NutConfOptions.build
        ["--set-monitor", "a", "b", "c", "d", "e", "f",
         "--add-monitor", "u", "v", "w", "x", "y", "z"]).add_monitor_cnt) ∧
    ((NutConfOptions.build
        ["--set-monitor", "a", "b", "c", "d", "e", "f",
         "--add-monitor", "u", "v", "w", "x", "y", "z"]).valid = false ∧
      "--set-monitor and --add-monitor options can't both be specified" ∈
        (NutConfOptions.build
          ["--set-monitor", "a", "b", "c", "d", "e", "f",
           "--add-monitor", "u", "v", "w", "x", "y", "z"]).errors) :=
  ⟨by decide,
   (valid_iff_no_problems
      ["--set-monitor", "a", "b", "c", "d", "e", "f",
       "--add-monitor", "u", "v", "w", "x", "y", "z"]).2.1 (by decide)⟩

/-- **C7** (status: confirmed).  An empty token, a lone `"-"`, or a token
with three or more leading dashes is never classified as an option name:
the step treats it exactly as `addArg` (appended to the current
occurrence's argument list, or to the top-level bucket when no occurrence
is current), and no option count changes. -/
theorem literal_tokens_never_options (st : Options) (arg : String)
    (h : arg = "" ∨ arg = "-" ∨ arg.toList.take 3 = ['-', '-', '-']) :
    st.step arg = st.addArg arg ∧
    (∀ n, (st.step arg).countSingle n = st.countSingle n ∧
          (st.step arg).countDouble n = st.countDouble n) ∧
    (st.mlast = none → (st.step arg).margs = st.margs ++ [arg]) := by
  have hA : isArgToken arg = true := by
    rcases h with h | h | h
    · subst h; decide
    · subst h; decide
    · unfold isArgToken
      simp only [String.toList] at h ⊢
      rcases harg : arg.data with _ | ⟨c1, _ | ⟨c2, _ | ⟨c3, rest⟩⟩⟩ <;>
        rw [harg] at h <;> simp_all
  have hs := step_of_isArgToken st arg hA
  refine ⟨hs, ?_, ?_⟩
  · intro n
    rw [hs]
    exact ⟨countSingle_addArg st arg n, countDouble_addArg st arg n⟩
  · intro hnone
    rw [hs]
    simp [Options.addArg, hnone]

/-- Witness for `literal_tokens_never_options` at the store built from
`-x` and the literal token `"---y"`. -/
theorem literal_tokens_never_options_witness :
    ("---y" = "" ∨ "---y" = "-" ∨ "---y".toList.take 3 = ['-', '-', '-']) ∧
    ((Options.build ["-x"]).step "---y" = (Options.build ["-x"]).addArg "---y" ∧
     (∀ n, ((Options.build ["-x"]).step "---y").countSingle n =
            (Options.build ["-x"]).countSingle n ∧
           ((Options.build ["-x"]).step "---y").countDouble n =
            (Options.build ["-x"]).countDouble n) ∧
     ((Options.build ["-x"]).mlast = none →
       ((Options.build ["-x"]).step "---y").margs =
         (Options.build ["-x"]).margs ++ ["---y"])) :=
  ⟨by decide,
   literal_tokens_never_options (Options.build ["-x"]) "---y" (by decide)⟩

theorem foldl_step_of_args (rest : List String) (st : Options)
    (hlast : st.mlast = none)
    (hargs : ∀ a ∈ rest, isArgToken a = true) :
    rest.foldl Options.step st = { st with margs := st.margs ++ rest } := by
  induction rest generalizing st with
  | nil => simp
  | cons a t ih =>
    have hA : isArgToken a = true := hargs a (List.mem_cons_self a t)
    simp only [List.foldl_cons]
    rw [step_of_isArgToken st a hA]
    have ha : st.addArg a = { st with margs := st.margs ++ [a] } := by
      simp [Options.addArg, hlast]
    rw [ha, ih { st with margs := st.margs ++ [a] } (by exact hlast)
      (fun b hb => hargs b (List.mem_cons_of_mem a hb))]
    simp

/-- **C8** (status: confirmed).  A bare `"--"` token resets the current
occurrence: all argument-shaped tokens that follow it (before any further
option token) land in the top-level bucket, while the option maps are left
exactly as they were before the `"--"`. -/
theorem double_dash_resets_context (pre rest : List String)
    (h : ∀ a ∈ rest, isArgToken a = true) :
    (Options.build (pre ++ "--" :: rest)).margs = (Options.build pre).margs ++ rest ∧
    (Options.build (pre ++ "--" :: rest)).msingle = (Options.build pre).msingle ∧
    (Options.build (pre ++ "--" :: rest)).mdouble = (Options.build pre).mdouble ∧
    (Options.build (pre ++ "--" :: rest)).mlast = none := by
  unfold Options.build
  rw [List.foldl_append]
  simp only [List.foldl_cons]
  have hdd : ∀ s : Options, s.step "--" = { s with mlast := none } := fun s => rfl
  rw [hdd, foldl_step_of_args rest _ rfl h]
  exact ⟨rfl, rfl, rfl, rfl⟩

/-- Witness for `double_dash_resets_context`: after `--opt a -- b c`, the
tokens `b` and `c` are top-level arguments and `a` stays the only argument
of `opt`. -/
theorem double_dash_resets_context_witness :
    (∀ a ∈ ["b", "c"], isArgToken a = true) ∧
    ((Options.build (["--opt", "a"] ++ "--" :: ["b", "c"])).margs =
        (Options.build ["--opt", "a"]).margs ++ ["b", "c"] ∧
     (Options.build (["--opt", "a"] ++ "--" :: ["b", "c"])).msingle =
        (Options.build ["--opt", "a"]).msingle ∧
     (Options.build (["--opt", "a"] ++ "--" :: ["b", "c"])).mdouble =
        (Options.build ["--opt", "a"]).mdouble ∧
     (Options.build (["--opt", "a"] ++ "--" :: ["b", "c"])).mlast = none) :=
  ⟨by decide, double_dash_resets_context ["--opt", "a"] ["b", "c"] (by decide)⟩

theorem any_key_map_upd (m : List (String × UpsEntry)) (id : String)
    (f : UpsEntry → UpsEntry) :
    ((m.map (fun e => if e.1 == id then (e.1, f e.2) else e)).any
        (fun e => e.1 == id)) =
      m.any (fun e => e.1 == id) := by
  induction m with
  | nil => rfl
  | cons e rest ih =>
    simp only [List.map_cons, List.any_cons, ih]
    by_cases hb : e.1 = id <;> simp [hb]

theorem map_upd_of_no_key (m : List (String × UpsEntry)) (id : String)
    (f : UpsEntry → UpsEntry) (h : ∀ e ∈ m, (e.1 == id) = false) :
    m.map (fun e => if e.1 == id then (e.1, f e.2) else e) = m := by
  induction m with
  | nil => rfl
  | cons e rest ih =>
    have he := h e (List.mem_cons_self e rest)
    simp only [List.map_cons, he, Bool.false_eq_true, if_false]
    rw [ih (fun b hb => h b (List.mem_cons_of_mem e hb))]

theorem setEntryField_comp (m : List (String × UpsEntry)) (id : String)
    (f g : UpsEntry → UpsEntry) :
    setEntryField (setEntryField m id f) id g =
      setEntryField m id (fun e => g (f e)) := by
  unfold setEntryField
  by_cases h : (m.any (fun e => e.1 == id)) = true
  · rw [if_pos h, if_pos h, if_pos (by rw [any_key_map_upd]; exact h)]
    rw [List.map_map]
    congr 1
    funext e
    by_cases hb : e.1 = id <;> simp [hb]
  · have hall : ∀ e ∈ m, (e.1 == id) = false := by
      intro e he
      cases hbe : (e.1 == id) with
      | false => rfl
      | true => exact absurd (List.any_of_mem he hbe) h
    rw [if_neg h, if_neg h]
    rw [if_pos (by simp [List.any_append])]
    rw [List.map_append, map_upd_of_no_key m id _ hall]
    simp

theorem applyDevice_idem (m : List (String × UpsEntry)) (d : DeviceSpec) :
    applyDevice (applyDevice m d) d = applyDevice m d := by
  unfold applyDevice setDriver setPort setDescription
  split_ifs with hd <;> simp only [setEntryField_comp]

/-- **C9** (status: confirmed, upsert spec-modelled from the spec's
description of `setDriver`/`setPort`/`setDescription`).  Merging the same
device record twice with `keepExisting = true` gives the same section
state as merging it once. -/
theorem device_upsert_idempotent (sections t : List (String × UpsEntry))
    (d : DeviceSpec) (h : mergeDevices sections [d] true = some t) :
    mergeDevices t [d] true = some t := by
  have h1 : mergeDevices sections [d] true = some (applyDevice sections d) := rfl
  rw [h1] at h
  have ht : t = applyDevice sections d := (Option.some.inj h).symm
  subst ht
  have h2 : mergeDevices (applyDevice sections d) [d] true =
      some (applyDevice (applyDevice sections d) d) := rfl
  rw [h2, applyDevice_idem]

/-- Witness for `device_upsert_idempotent` at a concrete section list and
device record. -/
theorem device_upsert_idempotent_witness :
    (mergeDevices [("", ⟨none, none, none⟩), ("B", ⟨some "db", some "pb", none⟩)]
        [{ id := "A", driver := "d2", port := "p2", desc := "" }] true =
      some [("", ⟨none, none, none⟩), ("B", ⟨some "db", some "pb", none⟩),
            ("A", ⟨some "d2", some "p2", none⟩)]) ∧
    mergeDevices [("", ⟨none, none, none⟩), ("B", ⟨some "db", some "pb", none⟩),
            ("A", ⟨some "d2", some "p2", none⟩)]
        [{ id := "A", driver := "d2", port := "p2", desc := "" }] true =
      some [("", ⟨none, none, none⟩), ("B", ⟨some "db", some "pb", none⟩),
            ("A", ⟨some "d2", some "p2", none⟩)] :=
  ⟨by decide,
   device_upsert_idempotent
     [("", ⟨none, none, none⟩), ("B", ⟨some "db", some "pb", none⟩)]
     [("", ⟨none, none, none⟩), ("B", ⟨some "db", some "pb", none⟩),
      ("A", ⟨some "d2", some "p2", none⟩)]
     { id := "A", driver := "d2", port := "p2", desc := "" } (by decide)⟩

theorem procLocal_monitors (st : NutConfOptions) :
    (procLocal st).monitors = st.monitors := by
  simp only [procLocal]
  split_ifs <;> rfl

theorem procMode_monitors (st : NutConfOptions) :
    (procMode st).monitors = st.monitors := by
  simp only [procMode]
  split_ifs <;> rfl

theorem procListen_monitors (st : NutConfOptions) (opt : String) :
    (procListen st opt).monitors = st.monitors := by
  simp only [procListen]
  split_ifs <;> rfl

theorem procDevice_monitors (st : NutConfOptions) (opt : String) :
    (procDevice st opt).monitors = st.monitors := by
  simp only [procDevice]
  split_ifs <;> rfl

theorem procMonitor_monitors_mod (st : NutConfOptions) (opt : String)
    (h : st.monitors.length % 6 = 0) :
    (procMonitor st opt).monitors.length % 6 = 0 := by
  simp only [procMonitor]
  split_ifs with hs hn h6 <;> simp_all [List.length_append]

theorem procOpt_monitors_mod (st : NutConfOptions) (opt : String)
    (h : st.monitors.length % 6 = 0) :
    (procOpt st opt).monitors.length % 6 = 0 := by
  unfold procOpt
  split_ifs
  all_goals first
    | exact h
    | (rw [procLocal_monitors]; exact h)
    | (rw [procMode_monitors]; exact h)
    | (rw [procListen_monitors]; exact h)
    | (rw [procDevice_monitors]; exact h)
    | exact procMonitor_monitors_mod _ _ h

theorem foldl_procOpt_monitors_mod (l : List String) (st : NutConfOptions)
    (h : st.monitors.length % 6 = 0) :
    ((l.foldl procOpt st).monitors.length) % 6 = 0 := by
  induction l generalizing st with
  | nil => exact h
  | cons o t ih => exact ih _ (procOpt_monitors_mod _ _ h)

theorem finalize_monitors (st : NutConfOptions) :
    (finalize st).monitors = st.monitors := by
  simp only [finalize]
  split_ifs <;> rfl

/-- **C10** (status: confirmed).  After validation the flat monitor value
list always has length a multiple of 6, and `getMonitor` throws the range
error (modelled as `none`) exactly when `which ≥ length / 6`; otherwise it
returns the six fields at positions `6*which .. 6*which+5`. -/
theorem monitors_length_multiple_of_six (tokens : List String) (which : Nat) :
    (NutConfOptions.build tokens).monitors.length % 6 = 0 ∧
    ((NutConfOptions.build tokens).getMonitor which = none ↔
      (NutConfOptions.build tokens).monitors.length / 6 ≤ which) ∧
    (which < (NutConfOptions.build tokens).monitors.length / 6 →
      (NutConfOptions.build tokens).getMonitor which =
        some ((NutConfOptions.build tokens).monitors.getD (6 * which) "",
              (NutConfOptions.build tokens).monitors.getD (6 * which + 1) "",
              (NutConfOptions.build tokens).monitors.getD (6 * which + 2) "",
              (NutConfOptions.build tokens).monitors.getD (6 * which + 3) "",
              (NutConfOptions.build tokens).monitors.getD (6 * which + 4) "",
              (NutConfOptions.build tokens).monitors.getD (6 * which + 5) "")) := by
  refine ⟨?_, ?_, ?_⟩
  · have hb : NutConfOptions.build tokens =
        finalize ((Options.build tokens).stringsDouble.foldl procOpt
          (initNutConf (Options.build tokens))) := rfl
    rw [hb, finalize_monitors]
    exact foldl_procOpt_monitors_mod _ _ rfl
  · unfold NutConfOptions.getMonitor
    split_ifs with hc <;> simp [hc]
  · intro hw
    unfold NutConfOptions.getMonitor
    rw [if_neg (by omega)]

/-- Witness for `monitors_length_multiple_of_six`: one valid occurrence
gives a list of length 6 and `getMonitor 0` returns its six fields. -/
theorem monitors_length_multiple_of_six_witness :
    0 < (NutConfOptions.build
        ["--set-monitor", "a", "b", "c", "d", "e", "f"]).monitors.length / 6 ∧
    (NutConfOptions.build
        ["--set-monitor", "a", "b", "c", "d", "e", "f"]).getMonitor 0 =
      some ("a", "b", "c", "d", "e", "f") :=
  ⟨by decide,
   ((monitors_length_multiple_of_six
       ["--set-monitor", "a", "b", "c", "d", "e", "f"] 0).2.2
     (by decide)).trans (by decide)⟩

/-- **C4** (status: confirmed).  Two valid `--set-monitor` occurrences
yield exactly 2 monitor records, in command-line order, each with its 6
fields in positional order (and likewise for `--add-monitor`); an invalid
occurrence in the middle appends an error but does not stop processing of
subsequent occurrences; and at the level of a single dispatch step, for
either name, the occurrence addressed by the running ordinal of its own
name contributes its 6 argument tokens in order to the flat monitor list
when it is a Setter with exactly 6 arguments, while a Setter with the
wrong arity appends the exactly-6 error and a non-Setter occurrence (zero
arguments) appends the requires-arguments error, the per-name counter
being bumped in every case. -/
theorem monitor_records_in_order :
    ((NutConfOptions.build
        ["--set-monitor", "a", "b", "c", "d", "e", "f",
         "--set-monitor", "g", "h", "i", "j", "k", "l"]).monitors =
        ["a", "b", "c", "d", "e", "f", "g", "h", "i", "j", "k", "l"] ∧
      (NutConfOptions.build
        ["--set-monitor", "a", "b", "c", "d", "e", "f",
         "--set-monitor", "g", "h", "i", "j", "k", "l"]).set_monitor_cnt = 2 ∧
      (NutConfOptions.build
        ["--set-monitor", "a", "b", "c", "d", "e", "f",
         "--set-monitor", "g", "h", "i", "j", "k", "l"]).valid = true ∧
      (NutConfOptions.build
        ["--set-monitor", "a", "b", "c", "d", "e", "f",
         "--set-monitor", "g", "h", "i", "j", "k", "l"]).getMonitor 0 =
        some ("a", "b", "c", "d", "e", "f") ∧
      (NutConfOptions.build
        ["--set-monitor", "a", "b", "c", "d", "e", "f",
         "--set-monitor", "g", "h", "i", "j", "k", "l"]).getMonitor 1 =
        some ("g", "h", "i", "j", "k", "l")) ∧
    ((NutConfOptions.build
        ["--set-monitor", "a", "b", "c", "d", "e", "f",
         "--set-monitor", "x",
         "--set-monitor", "g", "h", "i", "j", "k", "l"]).monitors =
        ["a", "b", "c", "d", "e", "f", "g", "h", "i", "j", "k", "l"] ∧
      (NutConfOptions.build
        ["--set-monitor", "a", "b", "c", "d", "e", "f",
         "--set-monitor", "x",
         "--set-monitor", "g", "h", "i", "j", "k", "l"]).errors =
        ["--set-monitor option requires exactly 6 arguments"] ∧
      (NutConfOptions.build
        ["--set-monitor", "a", "b", "c", "d", "e", "f",
         "--set-monitor", "x",
         "--set-monitor", "g", "h", "i", "j", "k", "l"]).set_monitor_cnt = 3) ∧
    ((NutConfOptions.build
        ["--add-monitor", "a", "b", "c", "d", "e", "f",
         "--add-monitor", "g", "h", "i", "j", "k", "l"]).monitors =
        ["a", "b", "c", "d", "e", "f", "g", "h", "i", "j", "k", "l"] ∧
      (NutConfOptions.build
        ["--add-monitor", "a", "b", "c", "d", "e", "f",
         "--add-monitor", "g", "h", "i", "j", "k", "l"]).add_monitor_cnt = 2 ∧
      (NutConfOptions.build
        ["--add-monitor", "a", "b", "c", "d", "e", "f",
         "--add-monitor", "g", "h", "i", "j", "k", "l"]).valid = true ∧
      (NutConfOptions.build
        ["--add-monitor", "a", "b", "c", "d", "e", "f",
         "--add-monitor", "g", "h", "i", "j", "k", "l"]).getMonitor 0 =
        some ("a", "b", "c", "d", "e", "f") ∧
      (NutConfOptions.build
        ["--add-monitor", "a", "b", "c", "d", "e", "f",
         "--add-monitor", "g", "h", "i", "j", "k", "l"]).getMonitor 1 =
        some ("g", "h", "i", "j", "k", "l")) ∧
    ((NutConfOptions.build ["--set-monitor"]).errors =
        ["--set-monitor option requires arguments"] ∧
      (NutConfOptions.build ["--set-monitor"]).set_monitor_cnt = 1 ∧
      (NutConfOptions.build ["--set-monitor"]).monitors = []) ∧
    (∀ (st : NutConfOptions) (args : List String),
      optModeD st.base "set-monitor" st.set_monitor_cnt =
        (OptMode.SETTER, args) →
      (args.length = 6 →
        procMonitor st "set-monitor" =
          { st with
            monitors := st.monitors ++ args,
            set_monitor_cnt := st.set_monitor_cnt + 1 }) ∧
      (args.length ≠ 6 →
        procMonitor st "set-monitor" =
          { st with
            errors := st.errors ++
              ["--set-monitor option requires exactly 6 arguments"],
            set_monitor_cnt := st.set_monitor_cnt + 1 })) ∧
    (∀ (st : NutConfOptions) (args : List String),
      optModeD st.base "add-monitor" st.add_monitor_cnt =
        (OptMode.SETTER, args) →
      (args.length = 6 →
        procMonitor st "add-monitor" =
          { st with
            monitors := st.monitors ++ args,
            add_monitor_cnt := st.add_monitor_cnt + 1 }) ∧
      (args.length ≠ 6 →
        procMonitor st "add-monitor" =
          { st with
            errors := st.errors ++
              ["--add-monitor option requires exactly 6 arguments"],
            add_monitor_cnt := st.add_monitor_cnt + 1 })) ∧
    (∀ st : NutConfOptions,
      ((optModeD st.base "set-monitor" st.set_monitor_cnt).1 ≠
          OptMode.SETTER →
        procMonitor st "set-monitor" =
          { st with
            errors := st.errors ++ ["--set-monitor option requires arguments"],
            set_monitor_cnt := st.set_monitor_cnt + 1 }) ∧
      ((optModeD st.base "add-monitor" st.add_monitor_cnt).1 ≠
          OptMode.SETTER →
        procMonitor st "add-monitor" =
          { st with
            errors := st.errors ++ ["--add-monitor option requires arguments"],
            add_monitor_cnt := st.add_monitor_cnt + 1 })) := by
  refine ⟨⟨by decide, by decide, by decide, by decide, by decide⟩,
    ⟨by decide, by decide, by decide⟩,
    ⟨by decide, by decide, by decide, by decide, by decide⟩,
    ⟨by decide, by decide, by decide⟩, ?_, ?_, ?_⟩
  · intro st args h
    have hS : firstCharIsS "set-monitor" = true := rfl
    refine ⟨fun hl => ?_, fun hl => ?_⟩ <;> simp [procMonitor, hS, h, hl]
  · intro st args h
    have hA : firstCharIsS "add-monitor" = false := rfl
    refine ⟨fun hl => ?_, fun hl => ?_⟩ <;> simp [procMonitor, hA, h, hl]
  · intro st
    have hS : firstCharIsS "set-monitor" = true := rfl
    have hA : firstCharIsS "add-monitor" = false := rfl
    refine ⟨fun hne => ?_, fun hne => ?_⟩
    · simp [procMonitor, hS, hne]
    · simp [procMonitor, hA, hne]

/-- Witness for `monitor_records_in_order`: the dispatch-step hypotheses
hold concretely at a valid `--set-monitor` occurrence, a valid
`--add-monitor` occurrence, and a zero-argument (non-Setter)
`--set-monitor` occurrence. -/
theorem monitor_records_in_order_witness :
    (optModeD (initNutConf (Options.build
        ["--set-monitor", "a", "b", "c", "d", "e", "f"])).base "set-monitor"
        (initNutConf (Options.build
          ["--set-monitor", "a", "b", "c", "d", "e", "f"])).set_monitor_cnt =
      (OptMode.SETTER, ["a", "b", "c", "d", "e", "f"]) ∧
      optModeD (initNutConf (Options.build
        ["--add-monitor", "a", "b", "c", "d", "e", "f"])).base "add-monitor"
        (initNutConf (Options.build
          ["--add-monitor", "a", "b", "c", "d", "e", "f"])).add_monitor_cnt =
      (OptMode.SETTER, ["a", "b", "c", "d", "e", "f"]) ∧
      (optModeD (initNutConf (Options.build ["--set-monitor"])).base
        "set-monitor"
        (initNutConf (Options.build ["--set-monitor"])).set_monitor_cnt).1 ≠
        OptMode.SETTER ∧
      ("a" :: ["b", "c", "d", "e", "f"]).length = 6) ∧
    procMonitor (initNutConf (Options.build
        ["--set-monitor", "a", "b", "c", "d", "e", "f"])) "set-monitor" =
      { initNutConf (Options.build
          ["--set-monitor", "a", "b", "c", "d", "e", "f"]) with
        monitors := (initNutConf (Options.build
          ["--set-monitor", "a", "b", "c", "d", "e", "f"])).monitors ++
            ["a", "b", "c", "d", "e", "f"],
        set_monitor_cnt := (initNutConf (Options.build
          ["--set-monitor", "a", "b", "c", "d", "e", "f"])).set_monitor_cnt + 1 } ∧
    procMonitor (initNutConf (Options.build
        ["--add-monitor", "a", "b", "c", "d", "e", "f"])) "add-monitor" =
      { initNutConf (Options.build
          ["--add-monitor", "a", "b", "c", "d", "e", "f"]) with
        monitors := (initNutConf (Options.build
          ["--add-monitor", "a", "b", "c", "d", "e", "f"])).monitors ++
            ["a", "b", "c", "d", "e", "f"],
        add_monitor_cnt := (initNutConf (Options.build
          ["--add-monitor", "a", "b", "c", "d", "e", "f"])).add_monitor_cnt + 1 } ∧
    procMonitor (initNutConf (Options.build ["--set-monitor"])) "set-monitor" =
      { initNutConf (Options.build ["--set-monitor"]) with
        errors := (initNutConf (Options.build ["--set-monitor"])).errors ++
          ["--set-monitor option requires arguments"],
        set_monitor_cnt :=
          (initNutConf (Options.build ["--set-monitor"])).set_monitor_cnt + 1 } :=
  ⟨⟨by decide, by decide, by decide, by decide⟩,
   (monitor_records_in_order.2.2.2.2.1
      (initNutConf (Options.build
        ["--set-monitor", "a", "b", "c", "d", "e", "f"]))
      ["a", "b", "c", "d", "e", "f"] (by decide)).1 (by decide),
   (monitor_records_in_order.2.2.2.2.2.1
      (initNutConf (Options.build
        ["--add-monitor", "a", "b", "c", "d", "e", "f"]))
      ["a", "b", "c", "d", "e", "f"] (by decide)).1 (by decide),
   (monitor_records_in_order.2.2.2.2.2.2
      (initNutConf (Options.build ["--set-monitor"]))).1 (by decide)⟩

theorem isArgToken_of_head_ne_dash (v : String)
    (h : v.toList.head? ≠ some '-') : isArgToken v = true := by
  unfold isArgToken
  simp only [String.toList] at h ⊢
  rcases hv : v.data with _ | ⟨c, _ | ⟨c2, rest2⟩⟩
  · rfl
  · rfl
  · rw [hv] at h
    simp only [List.head?_cons, ne_eq, Option.some.injEq] at h
    simp [h]

theorem build_mode_arg (v : String) (h : v.toList.head? ≠ some '-') :
    Options.build ["--mode", v] =
      ⟨some (true, 0), [], [], [("mode", [v])]⟩ := by
  have h1 : Options.build ["--mode"] =
      ⟨some (true, 0), [], [], [("mode", [])]⟩ := by decide
  show Options.step (Options.build ["--mode"]) v = _
  rw [h1, step_of_isArgToken _ _ (isArgToken_of_head_ne_dash v h)]
  rfl

/-- **C6** (status: confirmed).  `--mode` with a single non-option argument
is valid exactly when the argument is in the fixed mode enum; outside the
enum the result is invalid with an error naming the unknown mode value,
and inside the enum the scalar mode value is set to the argument with no
error. -/
theorem mode_enum_validation (v : String) (h : v.toList.head? ≠ some '-') :
    ((NutConfOptions.build ["--mode", v]).valid = true ↔ checkMode v = true) ∧
    (checkMode v = false →
      (NutConfOptions.build ["--mode", v]).valid = false ∧
      (NutConfOptions.build ["--mode", v]).errors =
        ["Unknown NUT mode: \"" ++ v ++ "\""]) ∧
    (checkMode v = true →
      (NutConfOptions.build ["--mode", v]).mode = v ∧
      (NutConfOptions.build ["--mode", v]).errors = []) := by
  have hopt : optModeD (⟨some (true, 0), [], [], [("mode", [v])]⟩ : Options)
      "mode" 0 = (OptMode.SETTER, [v]) := rfl
  have hbuild : NutConfOptions.build ["--mode", v] =
      finalize (procMode
        (initNutConf ⟨some (true, 0), [], [], [("mode", [v])]⟩)) := by
    show finalize ((Options.build ["--mode", v]).stringsDouble.foldl procOpt
      (initNutConf (Options.build ["--mode", v]))) = _
    rw [build_mode_arg v h]
    rfl
  rw [hbuild]
  cases hc : checkMode v with
  | true =>
    have hm : procMode (initNutConf ⟨some (true, 0), [], [], [("mode", [v])]⟩) =
        { initNutConf (⟨some (true, 0), [], [], [("mode", [v])]⟩ : Options) with
          mode := v } := by
      simp [procMode, initNutConf, hopt, hc]
    rw [hm]
    refine ⟨by simp [finalize, initNutConf, Options.stringsSingle, sortedKeys],
      ?_, fun _ => ⟨rfl, rfl⟩⟩
    intro hcf
    exact Bool.noConfusion hcf
  | false =>
    have hm : procMode (initNutConf ⟨some (true, 0), [], [], [("mode", [v])]⟩) =
        { initNutConf (⟨some (true, 0), [], [], [("mode", [v])]⟩ : Options) with
          errors := ["Unknown NUT mode: \"" ++ v ++ "\""] } := by
      simp [procMode, initNutConf, hopt, hc]
    rw [hm]
    refine ⟨by simp [finalize, initNutConf, Options.stringsSingle, sortedKeys],
      fun _ => ⟨rfl, rfl⟩, ?_⟩
    intro hct
    exact Bool.noConfusion hct

/-- Witness for `mode_enum_validation`, applied to the unknown mode value
`"bogus"` and to the enum member `"standalone"`. -/
theorem mode_enum_validation_witness :
    ("bogus".toList.head? ≠ some '-' ∧
      (NutConfOptions.build ["--mode", "bogus"]).valid = false ∧
      (NutConfOptions.build ["--mode", "bogus"]).errors =
        ["Unknown NUT mode: \"" ++ "bogus" ++ "\""]) ∧
    ("standalone".toList.head? ≠ some '-' ∧
      (NutConfOptions.build ["--mode", "standalone"]).mode = "standalone" ∧
      (NutConfOptions.build ["--mode", "standalone"]).errors = []) :=
  ⟨⟨by decide, (mode_enum_validation "bogus" (by decide)).2.1 (by decide)⟩,
   ⟨by decide, (mode_enum_validation "standalone" (by decide)).2.2 (by decide)⟩⟩

end NutConf
